import Mathlib

/-!
# Verification of the real-time task-board client (`frontend/app/page.tsx`)

A shallow embedding of the client-side logic of the collaborative board
client: the board data model, the board-loading routine (`loadBoard`), the
websocket message handling (`handleWebSocketMessage`, `websocket.onmessage`,
`websocket.onclose`), the drag-and-drop move submission (`onDragEnd`), the
card update path (`findCard`, `updateCard`, `handleSave`) and the comment
submission path (`addComment`).

Network effects are modelled explicitly: each operation returns the list of
HTTP requests it issues, the list of `console.error` log prefixes it emits,
and the updated piece of React state it owns.  Request outcomes (success or
failure of an awaited call) are passed in as parameters, matching the
single-threaded async model in which each `await` either resolves or throws
into the enclosing `try`/`catch`.
-/

/-- A card, mirroring the card objects carried in board snapshots and in the
`PUT /api/cards/{id}` payload: `id`, `column_id`, `title`, `description`,
`priority`, `labels`, `assigned_to`. -/
structure Card where
  id : String
  column_id : String
  title : String
  description : String
  priority : String
  labels : List String
  assigned_to : String
deriving Repr, DecidableEq

/-- A column: identifier, name, ordered cards. -/
structure Column where
  id : String
  name : String
  cards : List Card
deriving Repr, DecidableEq

/-- A full board snapshot: identifier, name, ordered columns. -/
structure Board where
  id : String
  name : String
  columns : List Column
deriving Repr, DecidableEq

/-- A board summary as returned by `GET /api/boards` (only `id` is read by
the client; `name` is carried for fidelity). -/
structure BoardSummary where
  id : String
  name : String
deriving Repr, DecidableEq

/-- A comment record as returned by `GET /api/cards/{id}/comments`. -/
structure CommentRec where
  id : String
  card_id : String
  author : String
  text : String
  created_at : String
deriving Repr, DecidableEq

/-- The HTTP requests the client can issue (the axios calls in
`page.tsx`), each carrying exactly the fields of its JSON body. -/
inductive Request where
  | getBoards
  | getBoard (boardId : String)
  | postCard (column_id title description priority : String)
      (labels : List String) (assigned_to : String)
  | putCard (cardId : String) (payload : Card)
  | deleteCard (cardId : String)
  | moveCard (card_id target_column_id : String) (position : Nat)
  | getComments (cardId : String)
  | postComment (card_id author text : String)
deriving Repr, DecidableEq

/-- A drop location from the drag-and-drop library: `droppableId` is the
column id, `index` the position within it. -/
structure DragLocation where
  droppableId : String
  index : Nat
deriving Repr, DecidableEq

/-- A drag-end result: the dragged card's id, the source location, and the
destination (absent for a cancelled drag). -/
structure DragResult where
  draggableId : String
  source : DragLocation
  destination : Option DragLocation
deriving Repr, DecidableEq

/-- `onDragEnd` (page.tsx lines 147-161): if the result has no destination,
return immediately; otherwise `POST /api/cards/move` with
`{card_id, target_column_id, position}`.  On failure the catch block only
logs; in neither branch is `setBoard` called, so the board state passes
through unchanged.  Returns (requests issued, error logs, board state). -/
def onDragEnd (result : DragResult) (moveSucceeds : Bool)
    (board : Option Board) : List Request × List String × Option Board :=
  match result.destination with
  | none => ([], [], board)
  | some dest =>
      let req := Request.moveCard result.draggableId dest.droppableId dest.index
      if moveSucceeds then ([req], [], board)
      else ([req], ["Error moving card:"], board)

/-- C5: for every invocation of the move operation (drag end), the board
snapshot held by the client is left unchanged by the operation itself,
whether the move request succeeds or fails. -/
theorem onDragEnd_preserves_board (result : DragResult) (moveSucceeds : Bool)
    (board : Option Board) :
    (onDragEnd result moveSucceeds board).2.2 = board := by
  unfold onDragEnd
  cases result.destination with
  | none => rfl
  | some dest => cases moveSucceeds <;> rfl

/-- C6: for every drag-end result with a destination, `onDragEnd` sends
exactly one move request `{card_id := draggableId, target_column_id :=
destination.droppableId, position := destination.index}`; with no
destination (cancelled drag) it sends no request. -/
theorem onDragEnd_requests (result : DragResult) (moveSucceeds : Bool)
    (board : Option Board) :
    (onDragEnd result moveSucceeds board).1 =
      result.destination.elim []
        (fun dest =>
          [Request.moveCard result.draggableId dest.droppableId dest.index]) := by
  unfold onDragEnd
  cases result.destination with
  | none => rfl
  | some dest => cases moveSucceeds <;> rfl

/-- `loadBoard` (page.tsx lines 62-75): `GET /api/boards`; if the returned
list is nonempty, take `boards[0].id`, `GET /api/boards/{id}` and `setBoard`
with the response; if the list is empty, do nothing further.  Any thrown
error is caught and logged, leaving the board state untouched.  The two
fetch outcomes are passed in: `listResult` is the decoded body of the list
request (`none` = the request failed), `boardResult` gives the decoded
snapshot for each board id (`none` = that request failed). -/
def loadBoard (listResult : Option (List BoardSummary))
    (boardResult : String → Option Board) (board : Option Board) :
    List Request × List String × Option Board :=
  match listResult with
  | none => ([Request.getBoards], ["Error loading board:"], board)
  | some boards =>
      match boards with
      | [] => ([Request.getBoards], [], board)
      | b0 :: _ =>
          match boardResult b0.id with
          | none =>
              ([Request.getBoards, Request.getBoard b0.id],
               ["Error loading board:"], board)
          | some snap =>
              ([Request.getBoards, Request.getBoard b0.id], [], some snap)

/-- C9: every failure of a board pull — whether the list request or the
snapshot request fails — leaves the board state exactly as it was and emits
an error log; the client holds no failure flag, so nothing is left in a
failed state. -/
theorem loadBoard_failure_preserves_board
    (listResult : Option (List BoardSummary))
    (boardResult : String → Option Board) (board : Option Board)
    (hfail : listResult = none ∨
      ∃ b0 rest, listResult = some (b0 :: rest) ∧ boardResult b0.id = none) :
    (loadBoard listResult boardResult board).2.2 = board ∧
      (loadBoard listResult boardResult board).2.1 = ["Error loading board:"] := by
  rcases hfail with h | ⟨b0, rest, h, hb⟩
  · subst h; exact ⟨rfl, rfl⟩
  · subst h; simp [loadBoard, hb]

/-- Witness for C9 at a concrete input: the list request fails and the
previously loaded (empty) snapshot survives unchanged. -/
theorem loadBoard_failure_preserves_board_witness :
    (loadBoard none (fun _ => none) (some ⟨"b1", "Main", []⟩)).2.2 =
        some ⟨"b1", "Main", []⟩ ∧
      (loadBoard none (fun _ => none) (some ⟨"b1", "Main", []⟩)).2.1 =
        ["Error loading board:"] :=
  loadBoard_failure_preserves_board none (fun _ => none)
    (some ⟨"b1", "Main", []⟩) (Or.inl rfl)

/-- C10: a board load selects the first board of the returned list and
replaces the snapshot with that board's full state; on an empty list it
issues no snapshot fetch (only `GET /api/boards`) and leaves the state
unchanged — in particular, a not-yet-loaded state stays not-yet-loaded. -/
theorem loadBoard_first_board (boardResult : String → Option Board)
    (board : Option Board) (b0 : BoardSummary) (rest : List BoardSummary)
    (snap : Board) (h : boardResult b0.id = some snap) :
    loadBoard (some (b0 :: rest)) boardResult board =
        ([Request.getBoards, Request.getBoard b0.id], [], some snap) ∧
      loadBoard (some []) boardResult board =
        ([Request.getBoards], [], board) := by
  constructor
  · simp [loadBoard, h]
  · rfl

/-- A concrete empty board used by witnesses. -/
def sampleBoard : Board := { id := "b1", name := "Main", columns := [] }

/-- A concrete snapshot resolver used by witnesses: only `"b1"` resolves. -/
def sampleResolver : String → Option Board :=
  fun i => if i = "b1" then some sampleBoard else none

/-- Witness for C10 at a concrete input: two boards are listed, the first
one's snapshot is fetched and installed; the empty list leaves the
not-yet-loaded state (`none`) untouched. -/
theorem loadBoard_first_board_witness :
    loadBoard (some [⟨"b1", "Main"⟩, ⟨"b2", "Other"⟩]) sampleResolver none =
      ([Request.getBoards, Request.getBoard "b1"], [], some sampleBoard) ∧
    loadBoard (some []) sampleResolver none =
      ([Request.getBoards], [], none) :=
  loadBoard_first_board sampleResolver none
    ⟨"b1", "Main"⟩ [⟨"b2", "Other"⟩] sampleBoard (by simp [sampleResolver])

/-- The event kinds recognized by the `switch` in `handleWebSocketMessage`
(page.tsx lines 80-91); any of them triggers `loadBoard()`, every other
`type` falls through to the default branch and is ignored. -/
def recognizedKinds : List String :=
  ["card_created", "card_updated", "card_moved", "card_deleted",
   "column_created", "comment_created"]

/-- Whether an event type triggers a reload in `handleWebSocketMessage`. -/
def isRecognized (msgType : String) : Bool := recognizedKinds.contains msgType

/-- One step of an interleaved execution trace of the sync loop: either a
websocket event of the given `type` is delivered to
`handleWebSocketMessage`, or one in-flight `loadBoard()` promise resolves. -/
inductive TraceStep where
  | deliver (msgType : String)
  | pullComplete
deriving Repr, DecidableEq

/-- Observable sync state along a trace.  `inFlight` counts `loadBoard()`
calls whose promise has not yet resolved (trace bookkeeping — the client
code keeps no such variable); `pullsStarted` counts the `loadBoard()`
invocations so far. -/
structure ClientSync where
  inFlight : Nat
  pullsStarted : Nat
deriving Repr, DecidableEq

/-- The code's behavior per trace step: `handleWebSocketMessage` consults
only `message.type` — for a recognized type it calls `loadBoard()`
unconditionally (there is no in-flight check anywhere in page.tsx), for any
other type it does nothing.  A completing pull just resolves. -/
def clientStep (s : ClientSync) : TraceStep → ClientSync
  | TraceStep.deliver msgType =>
      if isRecognized msgType then
        { inFlight := s.inFlight + 1, pullsStarted := s.pullsStarted + 1 }
      else s
  | TraceStep.pullComplete => { s with inFlight := s.inFlight - 1 }

/-- Run the client over a trace from the connected state with no pull in
flight. -/
def clientRun (trace : List TraceStep) : ClientSync :=
  trace.foldl clientStep { inFlight := 0, pullsStarted := 0 }

/-- State of the reconciler described by the spec, with the two connected
states: `reloading = true` is the `Reloading` state (a pull in flight),
`reloading = false` is `Connected-Idle`.  `pulls` counts pulls issued. -/
structure SpecSync where
  reloading : Bool
  pulls : Nat
deriving Repr, DecidableEq

/-- The reconciler step as the spec words it (spec §4.4): a recognized
event in `Connected-Idle` transitions to `Reloading` and issues one pull; a
recognized event while `Reloading` is coalesced (no pull); pull completion
returns to `Connected-Idle`.  This definition follows the spec's words for
the refinement comparison, not the source. -/
def specStep (s : SpecSync) : TraceStep → SpecSync
  | TraceStep.deliver msgType =>
      if isRecognized msgType && !s.reloading then
        { reloading := true, pulls := s.pulls + 1 }
      else s
  | TraceStep.pullComplete => { s with reloading := false }

/-- Run the spec's reconciler over a trace from `Connected-Idle`. -/
def specRun (trace : List TraceStep) : SpecSync :=
  trace.foldl specStep { reloading := false, pulls := 0 }

/-- Number of recognized events delivered in a trace (the spec's
"non-coalesced" count coincides with this only when no event arrives while
a pull is in flight). -/
def countRecognized (trace : List TraceStep) : Nat :=
  (trace.filter (fun s =>
    match s with
    | TraceStep.deliver msgType => isRecognized msgType
    | TraceStep.pullComplete => false)).length

/-- C1 counterexample: two recognized events delivered back-to-back, the
second while the first pull is still in flight.  The code starts two pulls
(`handleWebSocketMessage` calls `loadBoard()` unconditionally), while the
claimed coalescing behavior would issue only one — so the number of pulls
issued does not equal the number of non-coalesced events. -/
theorem client_pull_coalescing_counterexample :
    (clientRun [TraceStep.deliver "card_created",
                TraceStep.deliver "card_updated"]).pullsStarted = 2 ∧
    (specRun [TraceStep.deliver "card_created",
              TraceStep.deliver "card_updated"]).pulls = 1 ∧
    ¬ ((clientRun [TraceStep.deliver "card_created",
                   TraceStep.deliver "card_updated"]).pullsStarted =
       (specRun [TraceStep.deliver "card_created",
                 TraceStep.deliver "card_updated"]).pulls) := by
  refine ⟨rfl, rfl, ?_⟩
  decide

/-- Auxiliary: the pull count after folding `clientStep` from any state is
the starting count plus the number of recognized deliveries. -/
theorem clientStep_foldl_pulls (trace : List TraceStep) :
    ∀ s : ClientSync,
      (trace.foldl clientStep s).pullsStarted =
        s.pullsStarted + countRecognized trace := by
  induction trace with
  | nil => intro s; simp [countRecognized]
  | cons step rest ih =>
      intro s
      cases step with
      | deliver msgType =>
          by_cases h : isRecognized msgType
          · simp [List.foldl_cons, clientStep, h, ih, countRecognized,
              List.filter_cons]
            omega
          · simp [List.foldl_cons, clientStep, h, ih, countRecognized,
              List.filter_cons]
      | pullComplete =>
          simp [List.foldl_cons, clientStep, ih, countRecognized,
            List.filter_cons]

/-- C1 amended: the client issues one pull per recognized event delivered,
with no coalescing — an event arriving while a pull is in flight still
triggers an additional pull, so pulls issued equal recognized events, not
non-coalesced events. -/
theorem client_pulls_eq_recognized_events (trace : List TraceStep) :
    (clientRun trace).pullsStarted = countRecognized trace := by
  have h := clientStep_foldl_pulls trace { inFlight := 0, pullsStarted := 0 }
  simpa [clientRun] using h

/-- Which callbacks are assigned on a `WebSocket` object.  The socket built
in the `useEffect` initializer (page.tsx lines 21-45) gets `onopen`,
`onmessage`, `onerror` and `onclose`; the socket built inside the reconnect
timer (lines 40-41) gets none of them before being stored with `setWs`. -/
structure SocketHandlers where
  onopenSet : Bool
  onmessageSet : Bool
  onerrorSet : Bool
  oncloseSet : Bool
deriving Repr, DecidableEq

/-- The handler assignments on the initial socket (page.tsx lines 23-43). -/
def initialSocketHandlers : SocketHandlers :=
  { onopenSet := true, onmessageSet := true, onerrorSet := true,
    oncloseSet := true }

/-- The handler assignments on the socket created inside the reconnect
timer (page.tsx lines 40-41): `new WebSocket(WS_URL)` followed only by
`setWs(newWebsocket)` — no callback is assigned. -/
def reconnectSocketHandlers : SocketHandlers :=
  { onopenSet := false, onmessageSet := false, onerrorSet := false,
    oncloseSet := false }

/-- The primitive effects a handler body can perform, in order. -/
inductive ClientAction where
  | logInfo (msg : String)
  | scheduleTimer (delayMs : Nat)
  | createSocket (handlers : SocketHandlers)
  | storeWs
  | invokeLoadBoard
deriving Repr, DecidableEq

/-- The body of `websocket.onclose` (page.tsx lines 36-43):
`console.log("WebSocket disconnected")`, then `setTimeout(..., 3000)`
scheduling the reconnect callback.  It calls neither `loadBoard` nor any
handler assignment. -/
def oncloseBody : List ClientAction :=
  [ClientAction.logInfo "WebSocket disconnected", ClientAction.scheduleTimer 3000]

/-- The body of the reconnect timer callback (page.tsx lines 40-41):
`const newWebsocket = new WebSocket(WS_URL); setWs(newWebsocket)`. -/
def reconnectTimerBody : List ClientAction :=
  [ClientAction.createSocket reconnectSocketHandlers, ClientAction.storeWs]

/-- Everything executed on the disconnect-then-reconnect path: the
`onclose` body followed, 3000 ms later, by the timer callback. -/
def reconnectPath : List ClientAction := oncloseBody ++ reconnectTimerBody

/-- Number of `loadBoard()` invocations in a list of actions. -/
def countLoadBoardCalls (actions : List ClientAction) : Nat :=
  (actions.filter (fun a =>
    match a with
    | ClientAction.invokeLoadBoard => true
    | _ => false)).length

/-- The delays of the timers scheduled by a list of actions. -/
def timersScheduled (actions : List ClientAction) : List Nat :=
  actions.filterMap (fun a =>
    match a with
    | ClientAction.scheduleTimer delayMs => some delayMs
    | _ => none)

/-- The handler sets of the sockets created by a list of actions. -/
def socketsCreated (actions : List ClientAction) : List SocketHandlers :=
  actions.filterMap (fun a =>
    match a with
    | ClientAction.createSocket handlers => some handlers
    | _ => none)

/-- A socket delivers incoming frames to `handleWebSocketMessage` exactly
when its `onmessage` callback was assigned. -/
def deliversEvents (handlers : SocketHandlers) : Bool := handlers.onmessageSet

/-- A socket reacts to its own disconnect (scheduling a reconnect) exactly
when its `onclose` callback was assigned. -/
def reconnectsOnClose (handlers : SocketHandlers) : Bool := handlers.oncloseSet

/-- C2 counterexample: the disconnect-then-reconnect path performs zero
`loadBoard()` calls, not the one unconditional pull the claim requires. -/
theorem reconnect_pull_counterexample :
    countLoadBoardCalls reconnectPath = 0 ∧
      ¬ (countLoadBoardCalls reconnectPath = 1) := by
  refine ⟨rfl, ?_⟩
  decide

/-- C2 amended: on an unexpected disconnect, `onclose` schedules exactly
one 3000 ms timer whose callback opens one new connection and stores it,
but no snapshot pull is performed anywhere on the reconnect path. -/
theorem reconnect_path_effects :
    timersScheduled oncloseBody = [3000] ∧
      socketsCreated reconnectTimerBody = [reconnectSocketHandlers] ∧
      countLoadBoardCalls reconnectPath = 0 := by
  refine ⟨rfl, rfl, rfl⟩

/-- C3 counterexample: the socket created by the reconnect timer has no
`onmessage` and no `onclose` callback, so it delivers no events to the
handler and a later disconnect of it triggers no further reconnect —
the reconnected channel does not resume normal operation. -/
theorem reconnect_resume_counterexample :
    deliversEvents reconnectSocketHandlers = false ∧
      reconnectsOnClose reconnectSocketHandlers = false := by
  exact ⟨rfl, rfl⟩

/-- C3 amended: an unexpected disconnect schedules exactly one reconnect
attempt after a fixed 3000 ms delay, but unlike the initial socket (whose
assigned callbacks deliver events and schedule reconnects), the replacement
socket is created with no callbacks: it delivers no events and a future
disconnect of it schedules no further reconnect, so the retry is not
indefinite. -/
theorem reconnect_no_resume :
    timersScheduled oncloseBody = [3000] ∧
      deliversEvents initialSocketHandlers = true ∧
      reconnectsOnClose initialSocketHandlers = true ∧
      socketsCreated reconnectTimerBody = [reconnectSocketHandlers] ∧
      deliversEvents reconnectSocketHandlers = false ∧
      reconnectsOnClose reconnectSocketHandlers = false := by
  exact ⟨rfl, rfl, rfl, rfl, rfl, rfl⟩

/-- The outcome of `JSON.parse(event.data)` on a wire message: `threw`
models malformed JSON (a `SyntaxError` is raised); `parsedNull` models the
frame `"null"`, which parses successfully to `null` — the only JSON value
on which a later property access `message.type` itself throws a
`TypeError`; `parsed msgType` models every other successfully parsed value,
whose `type` property reads as `msgType` (`none` when the value has no
string `type` property — reading `.type` on a non-null object, array,
string, number or boolean yields `undefined` without throwing, and a
non-string `type` matches no `case` label). -/
inductive ParseOutcome where
  | threw
  | parsedNull
  | parsed (msgType : Option String)
deriving Repr, DecidableEq

/-- `websocket.onmessage` (page.tsx lines 27-30): `const message =
JSON.parse(event.data); handleWebSocketMessage(message)`.  There is no
`try`/`catch`, so any exception propagates out of the handler, modelled as
`Except.error (logs emitted before the throw, error name)`: a parse
failure raises `SyntaxError` before anything is logged, and a parsed
`null` raises `TypeError` at `switch (message.type)` (page.tsx line 80)
after `handleWebSocketMessage` has logged the message (line 78).
Otherwise the handler returns normally with (info logs, number of
`loadBoard()` calls): one pull for a recognized `type`, none for any
other parsed message. -/
def onmessage (outcome : ParseOutcome) :
    Except (List String × String) (List String × Nat) :=
  match outcome with
  | ParseOutcome.threw => Except.error ([], "SyntaxError")
  | ParseOutcome.parsedNull =>
      Except.error (["WebSocket message:"], "TypeError")
  | ParseOutcome.parsed msgType =>
      Except.ok (["WebSocket message:"],
        match msgType with
        | some t => if isRecognized t then 1 else 0
        | none => 0)

/-- C4 counterexample: a malformed wire message makes `onmessage` raise the
parse error out of the handler — it is neither caught, nor logged, nor
dropped. -/
theorem onmessage_malformed_counterexample :
    onmessage ParseOutcome.threw = Except.error ([], "SyntaxError") ∧
      ¬ (∃ out, onmessage ParseOutcome.threw = Except.ok out) := by
  refine ⟨rfl, ?_⟩
  intro h
  rcases h with ⟨out, h⟩
  exact Except.noConfusion h

/-- C4 amended: a malformed wire message raises the `JSON.parse`
`SyntaxError` out of the `onmessage` handler without being caught or
logged (there is no `try`/`catch`); a message that parses to `null` also
raises out of the handler (a `TypeError` from `message.type`, after the
message itself was logged); every other parsed message is handled without
raising — a recognized `type` triggers one pull, the rest are ignored. -/
theorem onmessage_raises_on_malformed (msgType : Option String) :
    onmessage ParseOutcome.threw = Except.error ([], "SyntaxError") ∧
      onmessage ParseOutcome.parsedNull =
        Except.error (["WebSocket message:"], "TypeError") ∧
      onmessage (ParseOutcome.parsed msgType) =
        Except.ok (["WebSocket message:"],
          match msgType with
          | some t => if isRecognized t then 1 else 0
          | none => 0) := by
  exact ⟨rfl, rfl, rfl⟩

/-- `findCard` (page.tsx lines 139-145): scan the board's columns in order
and return the first card whose `id` matches, else null. -/
def findCard (board : Board) (cardId : String) : Option Card :=
  board.columns.findSome? (fun column =>
    column.cards.find? (fun c => c.id = cardId))

/-- The field overrides a caller may pass to `updateCard` (`none` = the
key is absent from the `updates` object, so the card's value survives). -/
structure CardUpdates where
  title : Option String
  description : Option String
  priority : Option String
deriving Repr, DecidableEq

/-- The `PUT /api/cards/{id}` body `{column_id: card.column_id, ...card,
...updates}` (page.tsx lines 115-119): the spread of `card` carries every
current field (including `column_id`, re-spread with the same value), and
the spread of `updates` overrides title/description/priority last. -/
def mergeCard (card : Card) (updates : CardUpdates) : Card :=
  { card with
    title := updates.title.getD card.title,
    description := updates.description.getD card.description,
    priority := updates.priority.getD card.priority }

/-- The modal-related React state `updateCard` touches. -/
structure UiState where
  showCardModal : Bool
  selectedCard : Option Card
deriving Repr, DecidableEq

/-- `updateCard` (page.tsx lines 112-125): look the card up in the current
board, `PUT` the merged payload, then close the modal
(`setShowCardModal(false); setSelectedCard(null)`).  A missing board or
card makes the property access throw inside the `try`, and a failed `PUT`
throws at the `await`; either way the `catch` only logs and the modal
state is untouched. -/
def updateCard (board : Option Board) (cardId : String) (updates : CardUpdates)
    (putSucceeds : Bool) (ui : UiState) :
    List Request × List String × UiState :=
  match board with
  | none => ([], ["Error updating card:"], ui)
  | some b =>
      match findCard b cardId with
      | none => ([], ["Error updating card:"], ui)
      | some card =>
          let req := Request.putCard cardId (mergeCard card updates)
          if putSucceeds then
            ([req], [], { showCardModal := false, selectedCard := none })
          else ([req], ["Error updating card:"], ui)

/-- `handleSave` (page.tsx lines 364-366): the modal invokes
`onUpdate(card.id, {title, description, priority})` with its three edit
buffers, i.e. `updateCard` with all three overrides present. -/
def handleSave (board : Option Board) (card : Card)
    (title description priority : String) (putSucceeds : Bool)
    (ui : UiState) : List Request × List String × UiState :=
  updateCard board card.id
    { title := some title, description := some description,
      priority := some priority } putSucceeds ui

/-- C8: when the card is found in the current snapshot, `updateCard` sends
exactly one update request whose payload is the card's current fields with
the provided overrides taking precedence and every other field carried
through unchanged (a full replacement), and it closes the modal exactly
when the request succeeds. -/
theorem updateCard_full_replacement (b : Board) (cardId : String)
    (updates : CardUpdates) (putSucceeds : Bool) (ui : UiState) (card : Card)
    (hfind : findCard b cardId = some card)
    (hopen : ui.showCardModal = true) :
    (updateCard (some b) cardId updates putSucceeds ui).1 =
        [Request.putCard cardId
          { id := card.id, column_id := card.column_id,
            title := updates.title.getD card.title,
            description := updates.description.getD card.description,
            priority := updates.priority.getD card.priority,
            labels := card.labels, assigned_to := card.assigned_to }] ∧
      ((updateCard (some b) cardId updates putSucceeds ui).2.2.showCardModal
          = false ↔ putSucceeds = true) := by
  cases putSucceeds with
  | false => simp [updateCard, hfind, mergeCard, hopen]
  | true => simp [updateCard, hfind, mergeCard]

/-- A concrete card for the C8 witness. -/
def sampleCard : Card :=
  { id := "c1", column_id := "Todo", title := "Fix bug", description := "",
    priority := "medium", labels := [], assigned_to := "Guest_1" }

/-- A concrete one-column board holding `sampleCard`. -/
def sampleBoardWithCard : Board :=
  { id := "b1", name := "Main",
    columns := [{ id := "Todo", name := "Todo", cards := [sampleCard] }] }

/-- Witness for C8 at a concrete input: saving new title/priority overrides
those fields, carries the rest of the card unchanged, and closes the
modal on success. -/
theorem updateCard_full_replacement_witness :
    (updateCard (some sampleBoardWithCard) "c1"
        { title := some "Fix bug now", description := none,
          priority := some "high" } true
        { showCardModal := true, selectedCard := some sampleCard }).1 =
      [Request.putCard "c1"
        { id := "c1", column_id := "Todo", title := "Fix bug now",
          description := "", priority := "high", labels := [],
          assigned_to := "Guest_1" }] ∧
    ((updateCard (some sampleBoardWithCard) "c1"
        { title := some "Fix bug now", description := none,
          priority := some "high" } true
        { showCardModal := true,
          selectedCard := some sampleCard }).2.2.showCardModal = false ↔
      true = true) :=
  updateCard_full_replacement sampleBoardWithCard "c1"
    { title := some "Fix bug now", description := none,
      priority := some "high" } true
    { showCardModal := true, selectedCard := some sampleCard }
    sampleCard (by decide) rfl

/-- The characters removed by JavaScript's `String.prototype.trim`:
ECMAScript WhiteSpace (tab, vertical tab, form feed, space, no-break
space, zero-width no-break space) and LineTerminator (LF, CR, line
separator, paragraph separator). -/
def jsIsWhitespace (c : Char) : Bool :=
  c = ' ' || c = '\t' || c = '\n' || c = '\r' ||
  c = Char.ofNat 0x0b || c = Char.ofNat 0x0c || c = Char.ofNat 0xa0 ||
  c = Char.ofNat 0x2028 || c = Char.ofNat 0x2029 || c = Char.ofNat 0xfeff

/-- `trim` on a character list: drop leading and trailing whitespace. -/
def jsTrim (l : List Char) : List Char :=
  ((l.dropWhile jsIsWhitespace).reverse.dropWhile jsIsWhitespace).reverse

/-- `jsTrim` yields the empty list exactly on whitespace-only input, i.e.
the JS guard `!text.trim()` accepts exactly the empty and whitespace-only
texts. -/
theorem jsTrim_eq_nil_iff (l : List Char) :
    jsTrim l = [] ↔ l.all jsIsWhitespace = true := by
  unfold jsTrim
  rw [List.reverse_eq_nil_iff, List.dropWhile_eq_nil_iff, List.all_eq_true]
  constructor
  · intro h c hc
    have hsplit := List.takeWhile_append_dropWhile jsIsWhitespace l
    rw [← hsplit, List.mem_append] at hc
    rcases hc with hc | hc
    · exact List.mem_takeWhile_imp hc
    · exact h c (List.mem_reverse.mpr hc)
  · intro h c hc
    have hmem : c ∈ l.dropWhile jsIsWhitespace := List.mem_reverse.mp hc
    have hsplit := List.takeWhile_append_dropWhile jsIsWhitespace l
    have hl : c ∈ l := by rw [← hsplit]; exact List.mem_append_right _ hmem
    exact h c hl

/-- The local state of the card modal's comment section. -/
structure ModalState where
  comments : List CommentRec
  newComment : String
deriving Repr, DecidableEq

/-- `addComment` (page.tsx lines 348-362): `if (!newComment.trim()) return;`
— the empty and whitespace-only texts are rejected before any request.
Otherwise `POST /api/comments` with `{card_id, author, text}` (the
untrimmed text), then `setNewComment("")` and `loadComments()`, whose
`GET` on success replaces the comment list and on failure only logs.  A
failed `POST` throws before `setNewComment`, so the state is untouched. -/
def addComment (cardId author : String) (postSucceeds : Bool)
    (fetchResult : Option (List CommentRec)) (st : ModalState) :
    List Request × List String × ModalState :=
  if jsTrim st.newComment.data = [] then ([], [], st)
  else
    let req := Request.postComment cardId author st.newComment
    if postSucceeds then
      match fetchResult with
      | some fetched =>
          ([req, Request.getComments cardId], [],
           { comments := fetched, newComment := "" })
      | none =>
          ([req, Request.getComments cardId], ["Error loading comments:"],
           { comments := st.comments, newComment := "" })
    else ([req], ["Error adding comment:"], st)

/-- C7: for every empty or whitespace-only text, `addComment` issues no
request and leaves the comment list (indeed the whole modal state)
unchanged; for every other text it submits one create-comment request and
then re-fetches the comment list. -/
theorem addComment_whitespace_guard (cardId author : String)
    (postSucceeds : Bool) (fetchResult : Option (List CommentRec))
    (fetched : List CommentRec) (st : ModalState) :
    (st.newComment.data.all jsIsWhitespace = true →
      addComment cardId author postSucceeds fetchResult st = ([], [], st)) ∧
    (st.newComment.data.all jsIsWhitespace = false →
      addComment cardId author true (some fetched) st =
        ([Request.postComment cardId author st.newComment,
          Request.getComments cardId], [],
         { comments := fetched, newComment := "" })) := by
  constructor
  · intro h
    have htrim : jsTrim st.newComment.data = [] :=
      (jsTrim_eq_nil_iff st.newComment.data).mpr h
    simp [addComment, htrim]
  · intro h
    have htrim : ¬ jsTrim st.newComment.data = [] := by
      intro hnil
      rw [(jsTrim_eq_nil_iff st.newComment.data).mp hnil] at h
      exact Bool.noConfusion h
    simp [addComment, htrim]

/-- Witness for C7 at concrete inputs: `"   "` is rejected with no request
and unchanged state; `"looks good"` is posted and the list re-fetched. -/
theorem addComment_whitespace_guard_witness :
    addComment "c1" "Guest_1" true none { comments := [], newComment := "   " }
        = ([], [], { comments := [], newComment := "   " }) ∧
      addComment "c1" "Guest_1" true
          (some [⟨"k1", "c1", "Guest_1", "looks good", "t0"⟩])
          { comments := [], newComment := "looks good" } =
        ([Request.postComment "c1" "Guest_1" "looks good",
          Request.getComments "c1"], [],
         { comments := [⟨"k1", "c1", "Guest_1", "looks good", "t0"⟩],
           newComment := "" }) :=
  ⟨(addComment_whitespace_guard "c1" "Guest_1" true none
      [⟨"k1", "c1", "Guest_1", "looks good", "t0"⟩]
      { comments := [], newComment := "   " }).1 (by decide),
   (addComment_whitespace_guard "c1" "Guest_1" true none
      [⟨"k1", "c1", "Guest_1", "looks good", "t0"⟩]
      { comments := [], newComment := "looks good" }).2 (by decide)⟩
